import Mathlib

/-!
Verification of the knarr-thrall inbound-mail triage guard
(src/guard/knarr-thrall/thrall.py and handler.py), as a shallow embedding.

Conventions of the embedding:
* Python dicts that the source iterates or mutates become ordered association
  lists (`List (k × v)`), matching insertion-order semantics of Python dicts.
* Wall-clock timestamps (`time.time()` floats) become `Int` seconds; `wall_ms`
  measurement is not modelled (the field is carried through as data).
* The SHA-256 prompt hash is carried as an opaque string parameter.
* Raised exceptions become `Except.error` with the exception text.
-/

/-! ## thrall.py: hex validation -/

/-- One character of the class `[0-9a-f]` of thrall.py's `_HEX_RE`. -/
def isHexLowerChar (c : Char) : Bool :=
  ('0' ≤ c && c ≤ '9') || ('a' ≤ c && c ≤ 'f')

/-- Python string slicing `s[:n]` (by code point).  `String.take` itself is
defined by well-founded recursion on byte positions and does not reduce
inside the kernel, so the embedding works on the character list. -/
def strTake (s : String) (n : Nat) : String := String.mk (s.data.take n)

/-- Python `str.lower()` (ASCII case mapping suffices for every relevant
input: a non-ASCII letter is never a hex digit and never compared). -/
def pyLower (s : String) : String := String.mk (s.data.map Char.toLower)

/-- The whitespace `str.strip()` removes. -/
def isPyWs (c : Char) : Bool :=
  c == ' ' || c == '\t' || c == '\n' || c == '\r' || c == '\x0c' || c == '\x0b'

/-- Python `str.strip()`. -/
def pyStrip (s : String) : String :=
  String.mk (((s.data.dropWhile isPyWs).reverse.dropWhile isPyWs).reverse)

/-- Python `s.startswith(pre)`. -/
def pyStartsWith (s pre : String) : Bool := pre.data.isPrefixOf s.data

/-- A non-empty run of `[0-9a-f]` characters. -/
def hexRun (cs : List Char) : Bool :=
  !cs.isEmpty && cs.all isHexLowerChar

/-- Whether `re.match(r'^[0-9a-f]+$', s)` succeeds in Python.  Python's `$`
(without `re.MULTILINE`) matches at the end of the string **or just before a
newline that is the last character**, so `"abc\n"` matches even though it is
not a pure hex string. -/
def pyHexMatch (s : String) : Bool :=
  hexRun s.data || (s.data.getLast? == some '\n' && hexRun s.data.dropLast)

/-- `sanitize_node_prefix` (thrall.py lines 258-264): lowercase the first 16
characters and return them when `_HEX_RE` matches, else `"invalid"`. -/
def sanitizeNodePrefix (fromNode : String) : String :=
  let pfx := pyLower (strTake fromNode 16)
  if pyHexMatch pfx then pfx else "invalid"

/-! ## thrall.py: tier resolution and fallback -/

/-- Inner loop of `_resolve_tier`: does any configured tier entry satisfy
`from_node.startswith(entry)`? -/
def anyStartsWith (fromNode : String) : List String → Bool
  | [] => false
  | p :: rest => pyStartsWith fromNode p || anyStartsWith fromNode rest

/-- `_resolve_tier` (thrall.py lines 267-273): walk the operator-provided
`{tier_name: [entry, ...]}` map in insertion order and return the first tier
one of whose entries the sender starts with; `"unknown"` when none matches. -/
def resolveTier (fromNode : String) : List (String × List String) → String
  | [] => "unknown"
  | (tierName, entries) :: rest =>
      if anyStartsWith fromNode entries then tierName
      else resolveTier fromNode rest

/-- The spec's tier resolution, for comparison with `resolveTier`: "resolves
the sender's trust tier (team, known, unknown) by longest-prefix match against
operator-configured tier lists" — the tier owning the longest configured entry
that the sender starts with, `"unknown"` when none matches. -/
def resolveTierLongestSpec (fromNode : String)
    (tiers : List (String × List String)) : String :=
  let best := tiers.foldl (fun acc p =>
    p.2.foldl (fun acc2 q =>
      if pyStartsWith fromNode q then
        match acc2 with
        | none => some (p.1, q)
        | some b => if q.length > b.2.length then some (p.1, q) else acc2
      else acc2) acc) none
  match best with
  | some b => b.1
  | none => "unknown"

/-- `_tier_fallback_action` (thrall.py lines 276-287), with the
`config.get("fallback", "tier")` value passed in as `fallbackMode`. -/
def tierFallbackAction (tier : String) (fallbackMode : String) : String :=
  if fallbackMode == "wake" then "wake"
  else if fallbackMode == "drop" then "drop"
  else if tier == "team" then "wake"
  else if tier == "known" then "wake"
  else "drop"

/-! ## A model of Python's json module (json.loads / json.dumps), used by
`OllamaBackend.classify` and `triage`. -/

/-- A parsed JSON value.  Numbers are carried as integers: no input relevant
to a claim contains a non-integer number. -/
inductive JsonVal where
  | null
  | bool (b : Bool)
  | num (n : Int)
  | str (s : String)
  | arr (xs : List JsonVal)
  | obj (fields : List (String × JsonVal))

/-- JSON insignificant whitespace. -/
def jsonWs (c : Char) : Bool :=
  c == ' ' || c == '\t' || c == '\n' || c == '\r'

/-- Drop leading JSON whitespace. -/
def skipWs : List Char → List Char
  | [] => []
  | c :: rest => if jsonWs c then skipWs rest else c :: rest

/-- Parse the body of a JSON string literal after the opening quote, up to and
past the closing quote.  `\uXXXX` escapes are not modelled (no input relevant
to a claim uses them). -/
def parseStringBody : Nat → List Char → Option (String × List Char)
  | 0, _ => none
  | _, [] => none
  | fuel+1, c :: rest =>
    if c == '"' then some ("", rest)
    else if c == '\\' then
      match rest with
      | [] => none
      | e :: rest2 =>
        let dec : Option Char :=
          if e == '"' then some '"'
          else if e == '\\' then some '\\'
          else if e == '/' then some '/'
          else if e == 'n' then some '\n'
          else if e == 't' then some '\t'
          else if e == 'r' then some '\r'
          else if e == 'b' then some '\x08'
          else if e == 'f' then some '\x0c'
          else none
        match dec with
        | some d =>
          (parseStringBody fuel rest2).map (fun p => (String.mk (d :: p.1.data), p.2))
        | none => none
    else (parseStringBody fuel rest).map (fun p => (String.mk (c :: p.1.data), p.2))

/-- Consume a fractional part `.digits`, if present. -/
def dropFrac (cs : List Char) : List Char :=
  match cs with
  | '.' :: r => (r.span (fun c => c.isDigit)).2
  | _ => cs

/-- Consume an exponent part `e[+-]digits`, if present. -/
def dropExp (cs : List Char) : List Char :=
  match cs with
  | c :: r =>
    if c == 'e' || c == 'E' then
      match r with
      | s :: r2 =>
        if s == '+' || s == '-' then (r2.span (fun d => d.isDigit)).2
        else (r.span (fun d => d.isDigit)).2
      | [] => r
    else cs
  | _ => cs

/-- Parse a JSON number.  The fractional and exponent parts are consumed but
the value kept is the integer part: no input relevant to a claim contains a
non-integer number. -/
def parseNumber (cs : List Char) : Option (Int × List Char) :=
  let p := match cs with
    | '-' :: r => (true, r)
    | _ => (false, cs)
  let ds := p.2.takeWhile (fun c => c.isDigit)
  let rest := p.2.dropWhile (fun c => c.isDigit)
  if ds.isEmpty then none
  else
    let natv : Nat := ds.foldl (fun acc c => acc * 10 + (c.toNat - '0'.toNat)) 0
    let v : Int := if p.1 then -(Int.ofNat natv) else Int.ofNat natv
    some (v, dropExp (dropFrac rest))

mutual

/-- Parse one JSON value (recursive descent, fuel-bounded). -/
def parseVal : Nat → List Char → Option (JsonVal × List Char)
  | 0, _ => none
  | fuel+1, cs =>
    match skipWs cs with
    | [] => none
    | c :: rest =>
      if c == '\x7b' then
        match skipWs rest with
        | '\x7d' :: r2 => some (.obj [], r2)
        | r2 => (parseFields fuel r2).map (fun p => (.obj p.1, p.2))
      else if c == '[' then
        match skipWs rest with
        | ']' :: r2 => some (.arr [], r2)
        | r2 => (parseItems fuel r2).map (fun p => (.arr p.1, p.2))
      else if c == '"' then
        (parseStringBody (rest.length + 1) rest).map (fun p => (.str p.1, p.2))
      else if c == 't' then
        if rest.take 3 = ['r', 'u', 'e'] then some (.bool true, rest.drop 3) else none
      else if c == 'f' then
        if rest.take 4 = ['a', 'l', 's', 'e'] then some (.bool false, rest.drop 4) else none
      else if c == 'n' then
        if rest.take 3 = ['u', 'l', 'l'] then some (.null, rest.drop 3) else none
      else
        (parseNumber (c :: rest)).map (fun p => (.num p.1, p.2))

/-- Parse the members of a JSON object after a non-`}` opening. -/
def parseFields : Nat → List Char → Option (List (String × JsonVal) × List Char)
  | 0, _ => none
  | fuel+1, cs =>
    match skipWs cs with
    | '"' :: rest =>
      match parseStringBody (rest.length + 1) rest with
      | none => none
      | some (k, r1) =>
        match skipWs r1 with
        | ':' :: r2 =>
          match parseVal fuel r2 with
          | none => none
          | some (v, r3) =>
            match skipWs r3 with
            | ',' :: r4 => (parseFields fuel r4).map (fun p => ((k, v) :: p.1, p.2))
            | '\x7d' :: r4 => some ([(k, v)], r4)
            | _ => none
        | _ => none
    | _ => none

/-- Parse the items of a JSON array after a non-`]` opening. -/
def parseItems : Nat → List Char → Option (List JsonVal × List Char)
  | 0, _ => none
  | fuel+1, cs =>
    match parseVal fuel cs with
    | none => none
    | some (v, r1) =>
      match skipWs r1 with
      | ',' :: r2 => (parseItems fuel r2).map (fun p => (v :: p.1, p.2))
      | ']' :: r2 => some ([v], r2)
      | _ => none

end

/-- `json.loads`: the whole input must be exactly one JSON value surrounded by
whitespace, else the call raises (modelled as `none`). -/
def pyJsonLoads (s : String) : Option JsonVal :=
  match parseVal (s.length + 2) s.data with
  | some (v, rest) => if (skipWs rest).isEmpty then some v else none
  | none => none

/-- Escape one string for `json.dumps`. -/
def jsonEscape (s : String) : String :=
  String.join (s.data.map (fun c =>
    if c == '"' then "\\\""
    else if c == '\\' then "\\\\"
    else if c == '\n' then "\\n"
    else if c == '\t' then "\\t"
    else if c == '\r' then "\\r"
    else String.mk [c]))

mutual

/-- `json.dumps` with the default separators `", "` and `": "`. -/
def jsonDumps : JsonVal → String
  | .null => "null"
  | .bool b => if b then "true" else "false"
  | .num n => toString n
  | .str s => "\"" ++ jsonEscape s ++ "\""
  | .arr xs => "[" ++ dumpsItems xs ++ "]"
  | .obj fs => "\x7b" ++ dumpsFields fs ++ "\x7d"

/-- Array items of `json.dumps`. -/
def dumpsItems : List JsonVal → String
  | [] => ""
  | [x] => jsonDumps x
  | x :: rest => jsonDumps x ++ ", " ++ dumpsItems rest

/-- Object members of `json.dumps`. -/
def dumpsFields : List (String × JsonVal) → String
  | [] => ""
  | [f] => "\"" ++ jsonEscape f.1 ++ "\": " ++ jsonDumps f.2
  | f :: rest => "\"" ++ jsonEscape f.1 ++ "\": " ++ jsonDumps f.2 ++ ", " ++ dumpsFields rest

end

/-! ## thrall.py: OllamaBackend.classify and triage -/

/-- Association-list lookup (Python `dict` read). -/
def lookupA {k v : Type} [BEq k] (m : List (k × v)) (key : k) : Option v :=
  (m.find? (fun p => p.1 == key)).map (fun p => p.2)

/-- Association-list write: update in place when the key is present (Python
dict assignment keeps the key's insertion position), append at the end when
it is new. -/
def setA {k v : Type} [BEq k] (m : List (k × v)) (key : k) (val : v) :
    List (k × v) :=
  if (m.find? (fun p => p.1 == key)).isSome then
    m.map (fun p => if p.1 == key then (key, val) else p)
  else m ++ [(key, val)]

/-- Association-list delete (Python `dict.pop(key, None)` / `del`). -/
def eraseA {k v : Type} [BEq k] (m : List (k × v)) (key : k) : List (k × v) :=
  m.filter (fun p => !(p.1 == key))

/-- Python `str.split("\\n")`: split on every newline, keeping empty pieces. -/
def splitNl : List Char → List (List Char)
  | [] => [[]]
  | c :: rest =>
    if c == '\n' then [] :: splitNl rest
    else
      match splitNl rest with
      | [] => [[c]]
      | l :: ls => (c :: l) :: ls

/-- Python `"\\n".join(...)`. -/
def joinNl : List (List Char) → List Char
  | [] => []
  | [l] => l
  | l :: ls => l ++ '\n' :: joinNl ls

/-- The content post-processing of `OllamaBackend.classify` (thrall.py lines
150-154): strip, then drop every line that starts (after stripping) with a
markdown code fence, then strip again. -/
def stripFences (content : String) : String :=
  let c := pyStrip content
  if pyStartsWith c "```" then
    let kept := (splitNl c.data).filter
      (fun l => !pyStartsWith (pyStrip (String.mk l)) "```")
    pyStrip (String.mk (joinNl kept))
  else c

/-- The parsing tail of `OllamaBackend.classify` (thrall.py lines 149-156):
fence-strip the HTTP response content and `json.loads` it; a parse failure is
a raised `json.JSONDecodeError`, modelled as `.error`. -/
def ollamaClassify (content : String) : Except String JsonVal :=
  match pyJsonLoads (stripFences content) with
  | some v => .ok v
  | none => .error "Expecting value: json decode failure"

/-- Whether an `Except` result is an error. -/
def exceptIsError : Except String JsonVal → Bool
  | .error _ => true
  | .ok _ => false

/-- The dict `triage` returns (thrall.py lines 244-252), also the classifier
decision the handler consumes.  `wallMs` is carried as data (the wall-clock
measurement itself is not modelled). -/
structure TriageResult where
  action : String
  reason : String
  trustTier : String
  wallMs : Int
  reasoning : String
  promptHash : String
deriving Repr, DecidableEq

/-- `result.get("action", "").lower().strip()` (thrall.py line 229) as far as
it returns a string: `some ""` when the key is absent (the `""` default),
`none` when the Python expression raises (`result` is not a dict, or the
`action` value is not a string so `.lower()` raises `AttributeError`). -/
def triageNormAction : JsonVal → Option String
  | .obj fs =>
    match lookupA fs "action" with
    | some (.str a) => some (pyStrip (pyLower a))
    | some _ => none
    | none => some ""
  | _ => none

/-- How `result.get('action')` renders inside the bad-action reason f-string
(thrall.py line 235): the raw string, or `None` when absent. -/
def rawActionRepr : JsonVal → String
  | .obj fs =>
    match lookupA fs "action" with
    | some (.str a) => a
    | some w => jsonDumps w
    | none => "None"
  | _ => "None"

/-- `result.get("reason", f"LLM classified as {action}")` (thrall.py line
237); a non-string reason value is rendered through `jsonDumps` (Python keeps
the raw object, which is only ever formatted into strings downstream). -/
def reasonField (v : JsonVal) (action : String) : String :=
  match v with
  | .obj fs =>
    match lookupA fs "reason" with
    | some (.str s) => s
    | some w => jsonDumps w
    | none => "LLM classified as " ++ action
  | _ => "LLM classified as " ++ action

/-- The `except` branch of `triage` (thrall.py lines 238-242): any exception
from the backend call or the result handling becomes a tier-fallback action
with a `backend error:` reason. -/
def triageErrResult (tier fallbackMode pHash e : String) : TriageResult :=
  { action := tierFallbackAction tier fallbackMode
    reason := "backend error: " ++ strTake e 100 ++ ", tier fallback"
    trustTier := tier
    wallMs := 0
    reasoning := "error: " ++ strTake e 200
    promptHash := pHash }

/-- `triage` (thrall.py lines 182-252) given the backend call's outcome:
team tier bypasses the backend; a valid returned action is kept; an invalid
one is replaced by the tier fallback; an exception (including the
`AttributeError` a non-dict result or non-string action raises inside the
`try` block) takes the `backend error:` branch. -/
def triageCore (fromNode : String) (trustTiers : List (String × List String))
    (fallbackMode pHash : String) (outcome : Except String JsonVal) :
    TriageResult :=
  let tier := resolveTier fromNode trustTiers
  if tier == "team" then
    { action := "wake"
      reason := "team node — bypass"
      trustTier := tier
      wallMs := 0
      reasoning := "team node — no classification"
      promptHash := pHash }
  else
    match outcome with
    | .error e => triageErrResult tier fallbackMode pHash e
    | .ok result =>
      match triageNormAction result with
      | none => triageErrResult tier fallbackMode pHash "AttributeError"
      | some action =>
        if action == "drop" || action == "wake" || action == "reply" then
          { action := action
            reason := reasonField result action
            trustTier := tier
            wallMs := 0
            reasoning := jsonDumps result
            promptHash := pHash }
        else
          { action := tierFallbackAction tier fallbackMode
            reason := "bad LLM action '" ++ rawActionRepr result ++ "', tier fallback"
            trustTier := tier
            wallMs := 0
            reasoning := jsonDumps result
            promptHash := pHash }

/-- `triage` over the ollama backend: the backend returns raw HTTP message
content, `classify` parses it, `triage` validates the decision. -/
def triageOllama (fromNode : String) (trustTiers : List (String × List String))
    (fallbackMode pHash content : String) : TriageResult :=
  triageCore fromNode trustTiers fallbackMode pHash (ollamaClassify content)

/-! ## handler.py: data model -/

/-- A breaker record as written to `breakers/<target>.json` (handler.py
`_trip_breaker`).  ISO-8601 timestamps are carried as `Int` seconds
(`datetime.fromisoformat(...).timestamp()` round-trips to the same value). -/
structure Breaker where
  type : String
  target : String
  reason : String
  trippedAt : Int
  tripCount : Int
  lastEvent : String
  autoExpireSeconds : Int
  expiresAt : Option Int
deriving Repr, DecidableEq

/-- One row of the `thrall_classifications` table. -/
structure ClassRow where
  messageId : Option String
  fromNode : String
  tier : String
  action : String
  reasoning : String
  promptHash : String
  wallMs : Int
  sessionId : Option String
  createdAt : Int
  ttlExpires : Int
deriving Repr, DecidableEq

/-- The system mail `_wake_agent` sends to the node itself. -/
structure WakeMsg where
  toNode : String
  msgType : String
  bodyType : String
  wakeAgent : Bool
  breakerType : String
  target : String
  reason : String
  sessionId : String
deriving Repr, DecidableEq

/-- The ThrallGuard configuration read in `__init__` (defaults applied). -/
structure GuardConfig where
  enabled : Bool
  thrallEnabled : Bool
  nodeId : String
  ignoreMsgTypes : List String
  maxPerHour : Nat
  loopThreshold : Nat
  loopThresholdSessionless : Nat
  knockThreshold : Nat
  ttlSeconds : Int
  activePromptHash : String
deriving Repr

/-- The mutable state of a ThrallGuard instance plus its externally visible
effects: the classification table, the breaker files on disk, the outbound
wake mails and the `thrall.log` lines. -/
structure GuardState where
  shuttingDown : Bool
  rateLimit : List (String × List Int)
  replyCounter : List ((String × String) × List Int)
  solicitedSends : List ((String × String) × Int)
  breakerDirExists : Bool
  breakerFiles : List (String × Breaker)
  breakerCache : List (String × (Int × Option Breaker))
  classifications : List ClassRow
  pendingCommits : Nat
  wakes : List WakeMsg
  textLog : List (String × String × String)
deriving Repr

/-- `_MAX_COUNTER_ENTRIES` (handler.py line 47). -/
def maxCounterEntries : Nat := 10000

/-- `_REPLY_WINDOW_SECONDS` (handler.py line 48). -/
def replyWindowSeconds : Int := 1800

/-- The breaker cache TTL (handler.py line 104). -/
def breakerCacheTtl : Int := 30

/-- `_commit_threshold` (handler.py line 118). -/
def commitThreshold : Nat := 10

/-! ## handler.py: logging and persistence -/

/-- Remove `\n` and `\r` (Python `.replace("\n", "").replace("\r", "")`). -/
def stripNewlines (s : String) : String :=
  String.mk (s.data.filter (fun c => !(c == '\n') && !(c == '\r')))

/-- Turn `\n` into a space and remove `\r` (the detail sanitization of
`_log_event`). -/
def newlinesToSpace (s : String) : String :=
  String.mk ((s.data.map (fun c => if c == '\n' then ' ' else c)).filter
    (fun c => !(c == '\r')))

/-- `_log_event` (handler.py lines 223-235): append a sanitized
`(action, node_prefix, detail)` line to thrall.log (the UTC timestamp prefix
is formatting only and not modelled). -/
def logEvent (s : GuardState) (action nodePfx detail : String) : GuardState :=
  { s with textLog := s.textLog ++
      [(action, strTake (stripNewlines nodePfx) 16, strTake (newlinesToSpace detail) 500)] }

/-- `_flush_commits` (handler.py lines 215-219). -/
def flushCommits (s : GuardState) : GuardState :=
  if s.pendingCommits > 0 && !s.shuttingDown then { s with pendingCommits := 0 }
  else s

/-- `_record_classification` (handler.py lines 193-213): a no-op while
shutting down; otherwise insert one row and commit in batches. -/
def recordClassification (cfg : GuardConfig) (s : GuardState)
    (msgId : Option String) (fromNode : String) (d : TriageResult)
    (sessionId : Option String) (now : Int) : GuardState :=
  if s.shuttingDown then s
  else
    let row : ClassRow :=
      { messageId := msgId
        fromNode := fromNode
        tier := d.trustTier
        action := d.action
        reasoning := strTake d.reasoning 2000
        promptHash := d.promptHash
        wallMs := d.wallMs
        sessionId := sessionId
        createdAt := now
        ttlExpires := now + cfg.ttlSeconds }
    let s1 := { s with classifications := s.classifications ++ [row]
                       pendingCommits := s.pendingCommits + 1 }
    if commitThreshold ≤ s1.pendingCommits then flushCommits s1 else s1

/-! ## handler.py: circuit breakers -/

/-- `_load_breaker` (handler.py lines 246-274): read the breaker file, and
when its `expires_at` has passed delete it from disk, log, and report none.
A missing or unparseable file is `none` in `breakerFiles`. -/
def loadBreaker (s : GuardState) (name : String) (now : Int) :
    Option Breaker × GuardState :=
  match lookupA s.breakerFiles name with
  | none => (none, s)
  | some b =>
    match b.expiresAt with
    | some expTs =>
      if expTs < now then
        (none, logEvent { s with breakerFiles := eraseA s.breakerFiles name }
          "BREAKER_EXPIRED" name
          ("auto-expired after " ++ toString b.autoExpireSeconds ++ "s"))
      else (some b, s)
    | none => (some b, s)

/-- `_get_breaker_cached` (handler.py lines 276-288): serve from the
in-memory cache while the entry is younger than 30 seconds; on a miss or a
stale entry read from disk and refresh the cache. -/
def getBreakerCached (s : GuardState) (name : String) (now : Int) :
    Option Breaker × GuardState :=
  match lookupA s.breakerCache name with
  | some c =>
    if now - c.1 < breakerCacheTtl then (c.2, s)
    else
      match loadBreaker s name now with
      | (br, s2) => (br, { s2 with breakerCache := setA s2.breakerCache name (now, br) })
  | none =>
    match loadBreaker s name now with
    | (br, s2) => (br, { s2 with breakerCache := setA s2.breakerCache name (now, br) })

/-- `_check_breakers` (handler.py lines 290-304): nothing blocks when the
breakers directory does not exist; else check `global` first, then the
sender's sanitized prefix. -/
def checkBreakers (s : GuardState) (fromNode : String) (now : Int) :
    Option Breaker × GuardState :=
  if !s.breakerDirExists then (none, s)
  else
    match getBreakerCached s "global" now with
    | (some b, s1) => (some b, s1)
    | (none, s1) => getBreakerCached s1 (sanitizeNodePrefix fromNode) now

/-- `_trip_breaker` (handler.py lines 306-343): refuse any target that is
neither the literal `global` nor `_HEX_RE`-matching; otherwise write the
breaker file `<target>.json` (carrying forward `trip_count`), invalidate the
cache entry and log. -/
def tripBreaker (s : GuardState) (breakerType target reason : String)
    (autoExpireSeconds : Int) (now : Int) : GuardState :=
  if target != "global" && !pyHexMatch target then s
  else
    let s1 := { s with breakerDirExists := true }
    let expiresAt := if 0 < autoExpireSeconds then some (now + autoExpireSeconds) else none
    let tc := match lookupA s1.breakerFiles target with
      | some old => old.tripCount + 1
      | none => 1
    let b : Breaker :=
      { type := breakerType
        target := target
        reason := strTake reason 500
        trippedAt := now
        tripCount := tc
        lastEvent := strTake reason 500
        autoExpireSeconds := autoExpireSeconds
        expiresAt := expiresAt }
    let s2 := { s1 with breakerFiles := setA s1.breakerFiles target b
                        breakerCache := eraseA s1.breakerCache target }
    logEvent s2 "BREAKER_TRIP" target (strTake reason 200)

/-- `_wake_agent` (handler.py lines 345-364): send a system mail to the node
itself (the send-failure branch only logs and is not modelled). -/
def wakeAgentMail (cfg : GuardConfig) (s : GuardState)
    (breakerType target reason : String) : GuardState :=
  { s with wakes := s.wakes ++
      [{ toNode := cfg.nodeId
         msgType := "system"
         bodyType := "thrall_breaker"
         wakeAgent := true
         breakerType := breakerType
         target := target
         reason := strTake reason 500
         sessionId := "thrall:breaker" }] }

/-! ## handler.py: rate limiter, solicited sends, loop and knock detection -/

/-- `_check_rate` (handler.py lines 368-377): prune the sender's window to
the last hour, drop the map entry when empty, and allow while the pruned
window is shorter than `max_replies_per_hour_per_node`. -/
def checkRate (cfg : GuardConfig) (s : GuardState) (pfx : String) (now : Int) :
    Bool × GuardState :=
  let window := ((lookupA s.rateLimit pfx).getD []).filter (fun t => now - t < 3600)
  let s1 := if window.isEmpty then { s with rateLimit := eraseA s.rateLimit pfx }
            else { s with rateLimit := setA s.rateLimit pfx window }
  (window.length < cfg.maxPerHour, s1)

/-- `_record_rate` (handler.py lines 379-382). -/
def recordRate (s : GuardState) (pfx : String) (now : Int) : GuardState :=
  { s with rateLimit := setA s.rateLimit pfx (((lookupA s.rateLimit pfx).getD []) ++ [now]) }

/-- Keep the newest `maxCounterEntries` entries of an LRU-ordered map: the
`while len(...) > _MAX_COUNTER_ENTRIES: popitem(last=False)` eviction loop. -/
def evictOldest {k v : Type} (m : List (k × v)) : List (k × v) :=
  (m.reverse.take maxCounterEntries).reverse

/-- `record_send` (handler.py lines 386-397). -/
def recordSend (s : GuardState) (toNode sessionId : String) (now : Int) :
    GuardState :=
  { s with solicitedSends :=
      evictOldest (setA s.solicitedSends (sanitizeNodePrefix toNode, sessionId) now) }

/-- `_is_solicited` (handler.py lines 399-407). -/
def isSolicited (s : GuardState) (fromNode sessionId : String) (now : Int) :
    Bool :=
  match lookupA s.solicitedSends (sanitizeNodePrefix fromNode, sessionId) with
  | none => false
  | some ts => !(3600 < now - ts)

/-- `_check_loop` (handler.py lines 411-451): bucket by explicit session or
`default`, slide a 30-minute window, append the arrival, LRU-move the entry
to the back and evict over capacity, double the threshold for solicited
replies, and report a reason when the window exceeds the threshold. -/
def checkLoop (cfg : GuardConfig) (s : GuardState) (fromNode : String)
    (sessionId : Option String) (now : Int) : Option String × GuardState :=
  let pfx := sanitizeNodePrefix fromNode
  let keyThr : (String × String) × Nat :=
    match sessionId with
    | some sid =>
      if !(sid == "") && !pyStartsWith sid "resp:" then ((sid, pfx), cfg.loopThreshold)
      else (("default", pfx), cfg.loopThresholdSessionless)
    | none => (("default", pfx), cfg.loopThresholdSessionless)
  let window := (((lookupA s.replyCounter keyThr.1).getD []).filter
    (fun t => now - t < replyWindowSeconds)) ++ [now]
  let counter := eraseA s.replyCounter keyThr.1 ++ [(keyThr.1, window)]
  let s1 := { s with replyCounter := evictOldest counter }
  let solicited := isSolicited s1 fromNode (sessionId.getD "") now
  let effective := if solicited then keyThr.2 * 2 else keyThr.2
  (if effective < window.length then
    some ("loop detected: " ++ toString window.length ++ " replies from " ++ pfx
      ++ " in session '"
      ++ (match sessionId with
          | some sid => if sid == "" then "default" else sid
          | none => "default")
      ++ "' (threshold: " ++ toString effective ++ ", solicited: "
      ++ (if solicited then "True" else "False") ++ ")")
  else none, s1)

/-- `_check_knock_pattern` (handler.py lines 453-466): count `drop` rows for
this 16-character sender prefix in the last hour against the knock
threshold. -/
def checkKnock (cfg : GuardConfig) (s : GuardState) (pfx : String) (now : Int) :
    Bool :=
  let cnt := (s.classifications.filter (fun r =>
    strTake r.fromNode 16 == pfx && r.action == "drop" && now - 3600 < r.createdAt)).length
  cfg.knockThreshold ≤ cnt

/-! ## handler.py: the main hook -/

/-- Where `on_mail_received` exited for one inbound message. -/
inductive HookOutcome where
  | disabled
  | skipInvalid
  | skipOwn
  | skipIgnored
  | breakerBlocked
  | skipEmptyBody
  | skipShutdown
  | dropped
  | loopBlocked
  | rateLimited
  | handedOff
  | passThrough
deriving Repr, DecidableEq

/-- Whether the message survived every gate and is handed off to the
downstream collaborator (the fall-through end of `on_mail_received`;
`passThrough` is the thrall-disabled fall-through). -/
def HookOutcome.isHandedOff : HookOutcome → Bool
  | .handedOff => true
  | .passThrough => true
  | _ => false

/-- Whether the message was triaged by the classifier (reached and completed
the `thrall_mod.triage` call of `on_mail_received`). -/
def HookOutcome.isTriaged : HookOutcome → Bool
  | .dropped => true
  | .loopBlocked => true
  | .rateLimited => true
  | .handedOff => true
  | _ => false

/-- Python `msg_type or "text"` (the empty string is falsy). -/
def orText (msgType : String) : String :=
  if msgType == "" then "text" else msgType

/-- `if not session_id: session_id = f"resp:{prefix}"` (handler.py lines
531-532). -/
def defaultSession (sessionId : Option String) (pfx : String) : String :=
  match sessionId with
  | some sid => if sid == "" then "resp:" ++ pfx else sid
  | none => "resp:" ++ pfx

/-- Lines 556-597 of `on_mail_received`: everything after the triage call
returned `decision` (log, record, knock check on drop, loop detection, rate
limit, hand-off).  The repeated shutdown-latch check of lines 553-554 is
included; in this sequential model the latch cannot flip during the awaited
triage call, so it equals the latch the caller already checked. -/
def triagePath (cfg : GuardConfig) (s : GuardState) (fromNode pfx : String)
    (msgId : Option String) (sid : String) (decision : TriageResult)
    (now : Int) : GuardState × HookOutcome :=
  if s.shuttingDown then (s, .skipShutdown)
  else
    let s1 := logEvent s "TRIAGE" pfx
      ("action=" ++ decision.action ++ " tier=" ++ decision.trustTier
        ++ " wall=" ++ toString decision.wallMs ++ "ms reason=" ++ decision.reason)
    let s2 := recordClassification cfg s1 msgId fromNode decision (some sid) now
    if decision.action == "drop" then
      if checkKnock cfg s2 pfx now then
        let s3 := logEvent s2 "KNOCK_ALERT" pfx
          ("sustained drops (threshold: " ++ toString cfg.knockThreshold ++ ")")
        (wakeAgentMail cfg s3 "knock" pfx ("sustained drops from " ++ pfx), .dropped)
      else (s2, .dropped)
    else
      match checkLoop cfg s2 fromNode (some sid) now with
      | (some loopReason, s3) =>
        let s4 := logEvent s3 "LOOP_DETECTED" pfx loopReason
        let s5 := tripBreaker s4 "node" pfx loopReason 3600 now
        let s6 := wakeAgentMail cfg s5 "node" pfx loopReason
        let d : TriageResult :=
          { action := "loop_blocked"
            reason := ""
            trustTier := decision.trustTier
            wallMs := 0
            reasoning := loopReason
            promptHash := cfg.activePromptHash }
        (recordClassification cfg s6 none fromNode d (some sid) now, .loopBlocked)
      | (none, s3) =>
        match checkRate cfg s3 pfx now with
        | (false, s4) =>
          (logEvent s4 "SKIP_RATE" pfx
            ("rate limit (" ++ toString cfg.maxPerHour ++ "/hr)"), .rateLimited)
        | (true, s4) => (recordRate s4 pfx now, .handedOff)

/-- `on_mail_received` (handler.py lines 470-608).  `bodyText` is the text
derived from the body by the coercion of lines 507-523 (the coercion itself
touches no guard state and no claim concerns it); `msgId` is the body's
`_handler_message_id`, and `decision` the dict returned by the awaited
`thrall_mod.triage` call.  The unused `to_node` parameter is omitted. -/
def onMailReceived (cfg : GuardConfig) (s : GuardState)
    (msgType fromNode bodyText : String) (msgId : Option String)
    (sessionId : Option String) (decision : TriageResult) (now : Int) :
    GuardState × HookOutcome :=
  if !cfg.enabled then (s, .disabled)
  else
    let pfx := sanitizeNodePrefix fromNode
    if pfx == "invalid" then
      (logEvent s "SKIP_INVALID" (strTake fromNode 20) "non-hex node ID", .skipInvalid)
    else if fromNode == cfg.nodeId then (s, .skipOwn)
    else if cfg.ignoreMsgTypes.contains (orText msgType) then (s, .skipIgnored)
    else
      match checkBreakers s fromNode now with
      | (some b, s1) =>
        let s2 := logEvent s1 "BREAKER_BLOCKED" pfx
          ("breaker=" ++ b.target ++ ": " ++ b.reason)
        let d : TriageResult :=
          { action := "breaker_blocked"
            reason := ""
            trustTier := "unknown"
            wallMs := 0
            reasoning := "breaker: " ++ b.reason
            promptHash := cfg.activePromptHash }
        (recordClassification cfg s2 none fromNode d sessionId now, .breakerBlocked)
      | (none, s1) =>
        if pyStrip bodyText == "" then (s1, .skipEmptyBody)
        else
          let sid := defaultSession sessionId pfx
          if cfg.thrallEnabled then
            if s1.shuttingDown then (s1, .skipShutdown)
            else triagePath cfg s1 fromNode pfx msgId sid decision now
          else (logEvent s1 "PASS_THROUGH" pfx "thrall disabled", .passThrough)

/-- `on_shutdown` (handler.py lines 684-705): set the shutdown latch.  (The
in-flight drain is a real-time wait with no state effect in this sequential
model; the final commit and close change no modelled field.) -/
def onShutdown (cfg : GuardConfig) (s : GuardState) : GuardState :=
  if !cfg.enabled then s else { s with shuttingDown := true }

/-! ## Concrete scenario inputs for the closed theorems -/

/-- A fresh guard state right after `__init__`. -/
def initState : GuardState :=
  { shuttingDown := false
    rateLimit := []
    replyCounter := []
    solicitedSends := []
    breakerDirExists := false
    breakerFiles := []
    breakerCache := []
    classifications := []
    pendingCommits := 0
    wakes := []
    textLog := [] }

/-- A configuration with the handler defaults (TTL 30 days) and triage on. -/
def baseCfg : GuardConfig :=
  { enabled := true
    thrallEnabled := true
    nodeId := "ffffffffffffffffffffffffffffffffffffffffffffffffffffffffffffffff"
    ignoreMsgTypes := ["ack", "delivery", "system"]
    maxPerHour := 5
    loopThreshold := 2
    loopThresholdSessionless := 5
    knockThreshold := 10
    ttlSeconds := 2592000
    activePromptHash := "0123456789abcdef" }

/-- The 64-character sender `dd…dd` of the spec's loop scenario. -/
def ddNode : String :=
  "dddddddddddddddddddddddddddddddddddddddddddddddddddddddddddddddd"

/-- A non-drop classifier decision (`action=reply`). -/
def replyDecision : TriageResult :=
  { action := "reply"
    reason := "status check greeting"
    trustTier := "known"
    wallMs := 40
    reasoning := "\x7b\"action\": \"reply\"\x7d"
    promptHash := "0123456789abcdef" }

/-- Loop scenario (spec scenario 2): three admitted messages from `dd…dd`, all
in explicit session `s1`, triaged `reply` each time, arriving one minute
apart — state after the first message. -/
def loopS1 : GuardState :=
  (onMailReceived baseCfg initState "text" ddNode "hi" none (some "s1")
    replyDecision 1000).1

/-- Loop scenario: state after the second message. -/
def loopS2 : GuardState :=
  (onMailReceived baseCfg loopS1 "text" ddNode "hi" none (some "s1")
    replyDecision 1060).1

/-- Loop scenario: the third call (state and outcome). -/
def loopRun3 : GuardState × HookOutcome :=
  onMailReceived baseCfg loopS2 "text" ddNode "hi" none (some "s1")
    replyDecision 1120

/-- Rate scenario (spec scenario 4 at cap 1): `max_replies_per_hour_per_node`
set to 1. -/
def rateCfg : GuardConfig := { baseCfg with maxPerHour := 1 }

/-- Rate scenario: state after a first admitted sessionless message from
`dd…dd` (its rate window now holds one timestamp, the configured maximum). -/
def rateS1 : GuardState :=
  (onMailReceived rateCfg initState "text" ddNode "hi" none none
    replyDecision 2000).1

/-- Rate scenario: the second message ten seconds later (state and outcome):
its rate check finds the window full. -/
def rateRun2 : GuardState × HookOutcome :=
  onMailReceived rateCfg rateS1 "text" ddNode "hi" none none
    replyDecision 2010

/-- A 64-character `cc…cc` sender configured as tier `known`. -/
def ccNode : String :=
  "cccccccccccccccccccccccccccccccccccccccccccccccccccccccccccccccc"

/-- Trust tiers placing `cc…cc` in tier `known`. -/
def ccTiers : List (String × List String) := [("known", ["cccccccc"])]

/-- Backend output text with no extractable JSON object. -/
def garbledOutput : String := "I cannot classify this message."

/-- Triage of `cc…cc` over the ollama backend when the model answers with
`garbledOutput` (fallback mode `tier`). -/
def garbledResult : TriageResult :=
  triageOllama ccNode ccTiers "tier" "0123456789abcdef" garbledOutput

/-- A breaker whose `expires_at` (100) already passed. -/
def staleBreaker : Breaker :=
  { type := "node"
    target := "dddddddddddddddd"
    reason := "loop detected"
    trippedAt := 97
    tripCount := 1
    lastEvent := "loop detected"
    autoExpireSeconds := 3
    expiresAt := some 100 }

/-- A guard state whose cache holds `staleBreaker` for the `dd…dd` prefix,
cached at 95 (before the breaker expired at 100); on disk the file is still
present. -/
def staleCacheState : GuardState :=
  { initState with
      breakerDirExists := true
      breakerFiles := [("dddddddddddddddd", staleBreaker)]
      breakerCache := [("dddddddddddddddd", (95, some staleBreaker))] }

/-- A sender whose first 16 characters are 15 hex digits and a trailing
newline: Python's `$` accepts it, so `sanitize_node_prefix` returns a
"prefix" containing a newline. -/
def newlineNode : String := "aaaaaaaaaaaaaaa\n"

/-! ## Frame lemmas: which state fields each operation leaves unchanged -/

theorem flushCommits_frame (s : GuardState) :
    (flushCommits s).classifications = s.classifications
    ∧ (flushCommits s).shuttingDown = s.shuttingDown
    ∧ (flushCommits s).textLog = s.textLog := by
  unfold flushCommits
  split <;> exact ⟨rfl, rfl, rfl⟩

theorem recordClassification_of_shutdown (cfg : GuardConfig) (s : GuardState)
    (msgId : Option String) (fromNode : String) (d : TriageResult)
    (sessionId : Option String) (now : Int) (h : s.shuttingDown = true) :
    recordClassification cfg s msgId fromNode d sessionId now = s := by
  unfold recordClassification
  simp [h]

theorem recordClassification_length (cfg : GuardConfig) (s : GuardState)
    (msgId : Option String) (fromNode : String) (d : TriageResult)
    (sessionId : Option String) (now : Int) (h : s.shuttingDown = false) :
    (recordClassification cfg s msgId fromNode d sessionId now).classifications.length
      = s.classifications.length + 1 := by
  unfold recordClassification
  simp only [h, Bool.false_eq_true, if_false]
  split
  · rw [(flushCommits_frame _).1]
    simp
  · simp

theorem recordClassification_frame (cfg : GuardConfig) (s : GuardState)
    (msgId : Option String) (fromNode : String) (d : TriageResult)
    (sessionId : Option String) (now : Int) :
    (recordClassification cfg s msgId fromNode d sessionId now).shuttingDown
      = s.shuttingDown := by
  unfold recordClassification
  dsimp only
  split
  · rfl
  · split
    · rw [(flushCommits_frame _).2.1]
    · rfl

theorem loadBreaker_frame (s : GuardState) (name : String) (now : Int) :
    ((loadBreaker s name now).2).classifications = s.classifications
    ∧ ((loadBreaker s name now).2).shuttingDown = s.shuttingDown := by
  unfold loadBreaker
  repeat' split
  all_goals exact ⟨rfl, rfl⟩

theorem getBreakerCached_frame (s : GuardState) (name : String) (now : Int) :
    ((getBreakerCached s name now).2).classifications = s.classifications
    ∧ ((getBreakerCached s name now).2).shuttingDown = s.shuttingDown := by
  unfold getBreakerCached
  rcases hl : loadBreaker s name now with ⟨br, s2⟩
  have hc := loadBreaker_frame s name now
  rw [hl] at hc
  rcases hm : lookupA s.breakerCache name with _ | c
  · exact ⟨hc.1, hc.2⟩
  · dsimp only
    split
    · exact ⟨rfl, rfl⟩
    · exact ⟨hc.1, hc.2⟩

theorem checkBreakers_frame (s : GuardState) (fromNode : String) (now : Int) :
    ((checkBreakers s fromNode now).2).classifications = s.classifications
    ∧ ((checkBreakers s fromNode now).2).shuttingDown = s.shuttingDown := by
  unfold checkBreakers
  split
  · exact ⟨rfl, rfl⟩
  · rcases hg : getBreakerCached s "global" now with ⟨bg, s1⟩
    have h1 := getBreakerCached_frame s "global" now
    rw [hg] at h1
    cases bg with
    | none =>
      dsimp only
      have h2 := getBreakerCached_frame s1 (sanitizeNodePrefix fromNode) now
      exact ⟨h2.1.trans h1.1, h2.2.trans h1.2⟩
    | some b =>
      dsimp only
      exact ⟨h1.1, h1.2⟩

theorem checkLoop_frame (cfg : GuardConfig) (s : GuardState) (fromNode : String)
    (sessionId : Option String) (now : Int) :
    ((checkLoop cfg s fromNode sessionId now).2).classifications = s.classifications
    ∧ ((checkLoop cfg s fromNode sessionId now).2).shuttingDown = s.shuttingDown := by
  unfold checkLoop
  exact ⟨rfl, rfl⟩

theorem checkRate_frame (cfg : GuardConfig) (s : GuardState) (pfx : String)
    (now : Int) :
    ((checkRate cfg s pfx now).2).classifications = s.classifications
    ∧ ((checkRate cfg s pfx now).2).shuttingDown = s.shuttingDown := by
  unfold checkRate
  dsimp only
  split <;> exact ⟨rfl, rfl⟩

theorem logEvent_classifications (s : GuardState) (a b c : String) :
    (logEvent s a b c).classifications = s.classifications := rfl

theorem logEvent_shuttingDown (s : GuardState) (a b c : String) :
    (logEvent s a b c).shuttingDown = s.shuttingDown := rfl

theorem wakeAgentMail_classifications (cfg : GuardConfig) (s : GuardState)
    (a b c : String) :
    (wakeAgentMail cfg s a b c).classifications = s.classifications := rfl

theorem wakeAgentMail_shuttingDown (cfg : GuardConfig) (s : GuardState)
    (a b c : String) :
    (wakeAgentMail cfg s a b c).shuttingDown = s.shuttingDown := rfl

theorem recordRate_classifications (s : GuardState) (pfx : String) (now : Int) :
    (recordRate s pfx now).classifications = s.classifications := rfl

theorem tripBreaker_frame (s : GuardState) (a b c : String) (n now : Int) :
    (tripBreaker s a b c n now).classifications = s.classifications
    ∧ (tripBreaker s a b c n now).shuttingDown = s.shuttingDown := by
  unfold tripBreaker
  split
  · exact ⟨rfl, rfl⟩
  · exact ⟨rfl, rfl⟩

theorem triagePath_inserts (cfg : GuardConfig) (s : GuardState)
    (fromNode pfx : String) (msgId : Option String) (sid : String)
    (d : TriageResult) (now : Int) (s' : GuardState) (o : HookOutcome)
    (hsd : s.shuttingDown = false)
    (he : triagePath cfg s fromNode pfx msgId sid d now = (s', o)) :
    s'.classifications.length
      = s.classifications.length + (if o = .loopBlocked then 2 else 1)
    ∧ o.isTriaged = true := by
  unfold triagePath at he
  rw [hsd] at he
  simp only [Bool.false_eq_true, if_false] at he
  split at he
  · -- drop branch
    split at he
    · injection he with h1 h2
      subst h1; subst h2
      refine ⟨?_, rfl⟩
      rw [wakeAgentMail_classifications, logEvent_classifications,
        recordClassification_length]
      · rw [logEvent_classifications]
        simp
      · exact hsd
    · injection he with h1 h2
      subst h1; subst h2
      refine ⟨?_, rfl⟩
      rw [recordClassification_length]
      · rw [logEvent_classifications]
        simp
      · exact hsd
  · -- non-drop: loop match
    split at he
    · rename_i loopReason s3 heq
      injection he with h1 h2
      subst h1; subst h2
      refine ⟨?_, rfl⟩
      have h3 := checkLoop_frame cfg
        (recordClassification cfg
          (logEvent s "TRIAGE" pfx
            ("action=" ++ d.action ++ " tier=" ++ d.trustTier ++ " wall="
              ++ toString d.wallMs ++ "ms reason=" ++ d.reason))
          msgId fromNode d (some sid) now)
        fromNode (some sid) now
      rw [heq] at h3
      rw [recordClassification_length, wakeAgentMail_classifications,
        (tripBreaker_frame _ _ _ _ _ _).1, logEvent_classifications, h3.1,
        recordClassification_length]
      · rw [logEvent_classifications]
        simp
      · exact hsd
      · rw [wakeAgentMail_shuttingDown, (tripBreaker_frame _ _ _ _ _ _).2,
          logEvent_shuttingDown, h3.2, recordClassification_frame,
          logEvent_shuttingDown]
        exact hsd
    · -- no loop: rate match
      rename_i s3 heq
      have h3 := checkLoop_frame cfg
        (recordClassification cfg
          (logEvent s "TRIAGE" pfx
            ("action=" ++ d.action ++ " tier=" ++ d.trustTier ++ " wall="
              ++ toString d.wallMs ++ "ms reason=" ++ d.reason))
          msgId fromNode d (some sid) now)
        fromNode (some sid) now
      rw [heq] at h3
      split at he
      · rename_i s4 hrq
        have h4 := checkRate_frame cfg s3 pfx now
        rw [hrq] at h4
        injection he with h1 h2
        subst h1; subst h2
        refine ⟨?_, rfl⟩
        rw [logEvent_classifications, h4.1, h3.1, recordClassification_length]
        · rw [logEvent_classifications]
          simp
        · exact hsd
      · rename_i s4 hrq
        have h4 := checkRate_frame cfg s3 pfx now
        rw [hrq] at h4
        injection he with h1 h2
        subst h1; subst h2
        refine ⟨?_, rfl⟩
        rw [recordRate_classifications, h4.1, h3.1, recordClassification_length]
        · rw [logEvent_classifications]
          simp
        · exact hsd

/-- C5 (amended): for every inbound message that reaches the classifier (is
triaged rather than skipped), `on_mail_received` inserts exactly one row with
the triage decision into `thrall_classifications` on the drop, rate-limited
and handed-off paths, and exactly one additional `loop_blocked` row (two rows
in total) on the loop-blocked path. -/
theorem C5_triaged_insert_count (cfg : GuardConfig) (s : GuardState)
    (msgType fromNode bodyText : String) (msgId sessionId : Option String)
    (d : TriageResult) (now : Int)
    (h : ((onMailReceived cfg s msgType fromNode bodyText msgId sessionId d now).2).isTriaged
          = true) :
    ((onMailReceived cfg s msgType fromNode bodyText msgId sessionId d now).1).classifications.length
      = s.classifications.length
        + (if (onMailReceived cfg s msgType fromNode bodyText msgId sessionId d now).2
              = .loopBlocked then 2 else 1) := by
  rcases he : onMailReceived cfg s msgType fromNode bodyText msgId sessionId d now
    with ⟨s', o⟩
  rw [he] at h
  dsimp only at h ⊢
  unfold onMailReceived at he
  dsimp only at he
  split at he
  · injection he with h1 h2; subst h2; exact absurd h (by decide)
  · split at he
    · injection he with h1 h2; subst h2; exact absurd h (by decide)
    · split at he
      · injection he with h1 h2; subst h2; exact absurd h (by decide)
      · split at he
        · injection he with h1 h2; subst h2; exact absurd h (by decide)
        · split at he
          · injection he with h1 h2; subst h2; exact absurd h (by decide)
          · rename_i s1 heqB
            have hfr := checkBreakers_frame s fromNode now
            rw [heqB] at hfr
            split at he
            · injection he with h1 h2; subst h2; exact absurd h (by decide)
            · split at he
              · split at he
                · injection he with h1 h2; subst h2; exact absurd h (by decide)
                · rename_i hsd1
                  have hti := triagePath_inserts cfg s1 fromNode
                    (sanitizeNodePrefix fromNode) msgId
                    (defaultSession sessionId (sanitizeNodePrefix fromNode)) d now s' o
                    (Bool.eq_false_iff.mpr hsd1) he
                  rw [hti.1, hfr.1]
              · injection he with h1 h2; subst h2; exact absurd h (by decide)

theorem onMail_shutdown_frame (cfg : GuardConfig) (s : GuardState)
    (msgType fromNode bodyText : String) (msgId sessionId : Option String)
    (d : TriageResult) (now : Int) (h : s.shuttingDown = true) :
    ((onMailReceived cfg s msgType fromNode bodyText msgId sessionId d now).1).classifications
      = s.classifications := by
  rcases he : onMailReceived cfg s msgType fromNode bodyText msgId sessionId d now
    with ⟨s', o⟩
  dsimp only
  unfold onMailReceived at he
  dsimp only at he
  split at he
  · injection he with h1 h2; subst h1; rfl
  · split at he
    · injection he with h1 h2; subst h1; rfl
    · split at he
      · injection he with h1 h2; subst h1; rfl
      · split at he
        · injection he with h1 h2; subst h1; rfl
        · split at he
          · rename_i b s1 heqB
            have hfr := checkBreakers_frame s fromNode now
            rw [heqB] at hfr
            injection he with h1 h2; subst h1
            rw [recordClassification_of_shutdown, logEvent_classifications, hfr.1]
            rw [logEvent_shuttingDown, hfr.2]
            exact h
          · rename_i s1 heqB
            have hfr := checkBreakers_frame s fromNode now
            rw [heqB] at hfr
            split at he
            · injection he with h1 h2; subst h1; exact hfr.1
            · split at he
              · split at he
                · injection he with h1 h2; subst h1; exact hfr.1
                · rename_i hsd1
                  exact absurd (hfr.2.trans h) hsd1
              · injection he with h1 h2; subst h1
                rw [logEvent_classifications]; exact hfr.1

theorem logEvent_textLog (s : GuardState) (a b c : String) :
    (logEvent s a b c).textLog
      = s.textLog ++ [(a, strTake (stripNewlines b) 16, strTake (newlinesToSpace c) 500)] := rfl

theorem triagePath_rate (cfg : GuardConfig) (s : GuardState)
    (fromNode pfx : String) (msgId : Option String) (sid : String)
    (d : TriageResult) (now : Int) (s' : GuardState)
    (hsd : s.shuttingDown = false)
    (he : triagePath cfg s fromNode pfx msgId sid d now = (s', .rateLimited)) :
    s'.classifications.length = s.classifications.length + 1
    ∧ (s'.textLog.getLast?).map (fun e => e.1) = some "SKIP_RATE" := by
  unfold triagePath at he
  rw [hsd] at he
  simp only [Bool.false_eq_true, if_false] at he
  split at he
  · split at he
    · injection he with h1 h2; exact absurd h2 (by decide)
    · injection he with h1 h2; exact absurd h2 (by decide)
  · split at he
    · injection he with h1 h2; exact absurd h2 (by decide)
    · rename_i s3 heq
      have h3 := checkLoop_frame cfg
        (recordClassification cfg
          (logEvent s "TRIAGE" pfx
            ("action=" ++ d.action ++ " tier=" ++ d.trustTier ++ " wall="
              ++ toString d.wallMs ++ "ms reason=" ++ d.reason))
          msgId fromNode d (some sid) now)
        fromNode (some sid) now
      rw [heq] at h3
      split at he
      · rename_i s4 hrq
        have h4 := checkRate_frame cfg s3 pfx now
        rw [hrq] at h4
        injection he with h1 h2
        subst h1
        constructor
        · rw [logEvent_classifications, h4.1, h3.1, recordClassification_length]
          · rw [logEvent_classifications]
          · exact hsd
        · rw [logEvent_textLog, List.getLast?_append_cons]
          rfl
      · injection he with h1 h2; exact absurd h2 (by decide)

/-- C1 (amended): when the rate limit rejects an admitted message, the one
row already inserted for its triage decision remains the only row the call
inserts (no additional row records the rejection), the rejection is written
to the text log as a `SKIP_RATE` line, and the message is not handed off
downstream. -/
theorem C1_rate_limited_row_and_no_handoff (cfg : GuardConfig) (s : GuardState)
    (msgType fromNode bodyText : String) (msgId sessionId : Option String)
    (d : TriageResult) (now : Int)
    (h : (onMailReceived cfg s msgType fromNode bodyText msgId sessionId d now).2
          = .rateLimited) :
    ((onMailReceived cfg s msgType fromNode bodyText msgId sessionId d now).1).classifications.length
      = s.classifications.length + 1
    ∧ (((onMailReceived cfg s msgType fromNode bodyText msgId sessionId d now).1).textLog.getLast?).map
        (fun e => e.1) = some "SKIP_RATE"
    ∧ ((onMailReceived cfg s msgType fromNode bodyText msgId sessionId d now).2).isHandedOff
        = false := by
  rcases he : onMailReceived cfg s msgType fromNode bodyText msgId sessionId d now
    with ⟨s', o⟩
  rw [he] at h
  dsimp only at h ⊢
  subst h
  refine ?_
  unfold onMailReceived at he
  dsimp only at he
  split at he
  · injection he with h1 h2; exact absurd h2 (by decide)
  · split at he
    · injection he with h1 h2; exact absurd h2 (by decide)
    · split at he
      · injection he with h1 h2; exact absurd h2 (by decide)
      · split at he
        · injection he with h1 h2; exact absurd h2 (by decide)
        · split at he
          · injection he with h1 h2; exact absurd h2 (by decide)
          · rename_i s1 heqB
            have hfr := checkBreakers_frame s fromNode now
            rw [heqB] at hfr
            split at he
            · injection he with h1 h2; exact absurd h2 (by decide)
            · split at he
              · split at he
                · injection he with h1 h2; exact absurd h2 (by decide)
                · rename_i hsd1
                  have hr := triagePath_rate cfg s1 fromNode
                    (sanitizeNodePrefix fromNode) msgId
                    (defaultSession sessionId (sanitizeNodePrefix fromNode)) d now s'
                    (Bool.eq_false_iff.mpr hsd1) he
                  exact ⟨by rw [hr.1, hfr.1], hr.2, by decide⟩
              · injection he with h1 h2; exact absurd h2 (by decide)

/-- C8: after `on_shutdown` has returned, no `on_mail_received` call inserts
any row into `thrall_classifications`: the shutdown latch is consulted before
every classification write and before starting a new triage, so every
subsequent call (breaker-blocked, triage and loop paths included) leaves the
table unchanged. -/
theorem C8_no_insert_after_shutdown (cfg : GuardConfig) (s : GuardState)
    (msgType fromNode bodyText : String) (msgId sessionId : Option String)
    (d : TriageResult) (now : Int) :
    ((onMailReceived cfg (onShutdown cfg s) msgType fromNode bodyText msgId
        sessionId d now).1).classifications
      = (onShutdown cfg s).classifications := by
  by_cases hE : cfg.enabled = true
  · apply onMail_shutdown_frame
    simp [onShutdown, hE]
  · have hF : cfg.enabled = false := Bool.eq_false_iff.mpr hE
    unfold onMailReceived
    rw [hF]
    rfl

/-- C6: with the with-session loop threshold at 2 and no solicited send
recorded, the third non-drop-triaged message from the same sender in the same
explicit session within 30 minutes trips loop detection: a breaker file named
by the sender's 16-hex prefix is written with type `node`, target that
prefix and `auto_expire_seconds` 3600, the agent is woken with a
`thrall_breaker` system mail, and one additional classification row with
action `loop_blocked` is inserted. -/
theorem C6_loop_trip_on_third :
    loopRun3.2 = .loopBlocked
    ∧ sanitizeNodePrefix ddNode = "dddddddddddddddd"
    ∧ ("dddddddddddddddd" : String).length = 16
    ∧ hexRun "dddddddddddddddd".data = true
    ∧ ((lookupA loopRun3.1.breakerFiles "dddddddddddddddd").map Breaker.type)
        = some "node"
    ∧ ((lookupA loopRun3.1.breakerFiles "dddddddddddddddd").map Breaker.target)
        = some "dddddddddddddddd"
    ∧ ((lookupA loopRun3.1.breakerFiles "dddddddddddddddd").map Breaker.autoExpireSeconds)
        = some 3600
    ∧ ((lookupA loopRun3.1.breakerFiles "dddddddddddddddd").map Breaker.expiresAt)
        = some (some 4720)
    ∧ loopRun3.1.wakes.map
        (fun w => (w.toNode, w.msgType, w.bodyType, w.wakeAgent, w.breakerType, w.target))
        = [(baseCfg.nodeId, "system", "thrall_breaker", true, "node", "dddddddddddddddd")]
    ∧ loopS2.classifications.length = 2
    ∧ loopRun3.1.classifications.length = 4
    ∧ (loopRun3.1.classifications.getLast?).map ClassRow.action = some "loop_blocked" := by
  decide

/-- C5 counterexample: the third loop-scenario message reaches the classifier
(it is triaged), yet the call inserts two rows (the triage row and the
`loop_blocked` row), not exactly one. -/
theorem C5_cex :
    (loopRun3.2).isTriaged = true
    ∧ loopS2.classifications.length = 2
    ∧ loopRun3.1.classifications.length = 4
    ∧ ¬(loopRun3.1.classifications.length = loopS2.classifications.length + 1) := by
  decide

/-- C5 witness: the amended count theorem applied at the third loop-scenario
message. -/
theorem C5_witness :
    (loopRun3.2).isTriaged = true
    ∧ loopRun3.1.classifications.length
        = loopS2.classifications.length
          + (if loopRun3.2 = .loopBlocked then 2 else 1) :=
  ⟨by decide,
    C5_triaged_insert_count baseCfg loopS2 "text" ddNode "hi" none (some "s1")
      replyDecision 1120 (by decide)⟩

/-- C1 counterexample: with the cap at 1, the second admitted message from
the same sender is rate-limited, yet the call still inserts one row (its
triage decision): the table grows from 1 to 2 rows rather than staying at 1. -/
theorem C1_cex :
    rateRun2.2 = .rateLimited
    ∧ rateS1.classifications.length = 1
    ∧ rateRun2.1.classifications.length = 2
    ∧ ¬(rateRun2.1.classifications.length = rateS1.classifications.length) := by
  decide

/-- C1 witness: the amended rate-limit theorem applied at the second message
of the concrete rate scenario. -/
theorem C1_witness :
    rateRun2.1.classifications.length = rateS1.classifications.length + 1
    ∧ (rateRun2.1.textLog.getLast?).map (fun e => e.1) = some "SKIP_RATE"
    ∧ (rateRun2.2).isHandedOff = false :=
  C1_rate_limited_row_and_no_handoff rateCfg rateS1 "text" ddNode "hi" none none
    replyDecision 2010 (by decide)

/-- C9: while a breaker-cache entry is younger than the 30-second TTL,
`_get_breaker_cached` returns the cached value and touches neither the disk
file nor its `expires_at` (the state is returned unchanged) — so a breaker
whose `expires_at` has passed keeps blocking until the cache entry ages out;
expiry evaluation and disk deletion happen only on a cache miss, a stale
entry, or the prune tick. -/
theorem C9_cache_skips_expiry_check (s : GuardState) (name : String)
    (now cachedAt : Int) (br : Option Breaker)
    (hc : lookupA s.breakerCache name = some (cachedAt, br))
    (hf : now - cachedAt < breakerCacheTtl) :
    getBreakerCached s name now = (br, s) := by
  unfold getBreakerCached
  rw [hc]
  dsimp only
  rw [if_pos hf]

/-- C9 witness: a state whose cache holds, 25 seconds old, a breaker that
expired at 100; at time 120 the cached breaker is returned unchanged and the
breaker gate still blocks the sender. -/
theorem C9_witness :
    lookupA staleCacheState.breakerCache "dddddddddddddddd" = some (95, some staleBreaker)
    ∧ ((120 : Int) - 95 < breakerCacheTtl)
    ∧ staleBreaker.expiresAt = some 100
    ∧ ((100 : Int) < 120)
    ∧ getBreakerCached staleCacheState "dddddddddddddddd" 120 = (some staleBreaker, staleCacheState)
    ∧ (checkBreakers staleCacheState ddNode 120).1 = some staleBreaker :=
  ⟨rfl, by decide, rfl, by decide,
    C9_cache_skips_expiry_check staleCacheState "dddddddddddddddd" 120 95
      (some staleBreaker) rfl (by decide),
    rfl⟩

/-- C10: `sanitize_node_prefix` is length- and case-lenient: whenever
lowercasing the first 16 characters of the sender yields a non-empty string
of lowercase hex digits, that string — which may be shorter than 16
characters — is returned (never `invalid`), so such senders are admitted and
stored under that short prefix. -/
theorem C10_sanitize_lenient (s : String)
    (h1 : (pyLower (strTake s 16)).data ≠ [])
    (h2 : (pyLower (strTake s 16)).data.all isHexLowerChar = true) :
    sanitizeNodePrefix s = pyLower (strTake s 16)
    ∧ pyLower (strTake s 16) ≠ "invalid" := by
  have hne : (pyLower (strTake s 16)).data.isEmpty = false := by
    rcases hl : (pyLower (strTake s 16)).data with _ | ⟨c, cs⟩
    · exact absurd hl h1
    · rfl
  have hm : pyHexMatch (pyLower (strTake s 16)) = true := by
    unfold pyHexMatch hexRun
    rw [hne, h2]
    rfl
  refine ⟨?_, ?_⟩
  · unfold sanitizeNodePrefix
    dsimp only
    rw [hm]
    rfl
  · intro hEq
    rw [hEq] at h2
    exact absurd h2 (by decide)

/-- C10 witness: the two-character, mixed-case sender `aB` is admitted as the
two-character prefix `ab`. -/
theorem C10_witness :
    sanitizeNodePrefix "aB" = "ab"
    ∧ ("ab" : String) ≠ "invalid"
    ∧ ("ab" : String).length = 2 :=
  ⟨(C10_sanitize_lenient "aB" (by decide) (by decide)).1.trans (by decide),
    fun h => (C10_sanitize_lenient "aB" (by decide) (by decide)).2 (by rw [← h]; decide),
    by decide⟩

/-- Helper: the inner loop of `_resolve_tier` agrees with `List.any`. -/
theorem anyStartsWith_eq_any (fromNode : String) (l : List String) :
    anyStartsWith fromNode l = l.any (fun q => pyStartsWith fromNode q) := by
  induction l with
  | nil => rfl
  | cons p rest ih => simp [anyStartsWith, ih]

/-- C2 (amended): `_resolve_tier` performs a first-match walk, not a
longest-prefix match: it returns the tier of the first entry in iteration
order whose prefix the sender starts with, and `unknown` when no prefix
matches. -/
theorem C2_first_match_wins (fromNode : String)
    (tiers : List (String × List String)) :
    resolveTier fromNode tiers
      = (((tiers.find? (fun p => p.2.any (fun q => pyStartsWith fromNode q))).map
          Prod.fst).getD "unknown") := by
  induction tiers with
  | nil => rfl
  | cons hd tl ih =>
    obtain ⟨tn, ps⟩ := hd
    rw [resolveTier, anyStartsWith_eq_any]
    by_cases hmatch : ps.any (fun q => pyStartsWith fromNode q) = true
    · rw [if_pos hmatch]
      have hfind : List.find? (fun p => p.2.any (fun q => pyStartsWith fromNode q))
          ((tn, ps) :: tl) = some (tn, ps) := List.find?_cons_of_pos _ hmatch
      rw [hfind]
      rfl
    · rw [if_neg hmatch, ih]
      have hfind : List.find? (fun p => p.2.any (fun q => pyStartsWith fromNode q))
          ((tn, ps) :: tl)
          = List.find? (fun p => p.2.any (fun q => pyStartsWith fromNode q)) tl :=
        List.find?_cons_of_neg _ hmatch
      rw [hfind]

/-- C2 counterexample: with tiers `t1 → [a]`, `t2 → [ab]` and sender `abc`,
the longest matching prefix `ab` belongs to `t2`, but `_resolve_tier` returns
`t1` (the first match in iteration order). -/
theorem C2_cex :
    resolveTier "abc" [("t1", ["a"]), ("t2", ["ab"])] = "t1"
    ∧ resolveTierLongestSpec "abc" [("t1", ["a"]), ("t2", ["ab"])] = "t2"
    ∧ ¬(resolveTier "abc" [("t1", ["a"]), ("t2", ["ab"])]
        = resolveTierLongestSpec "abc" [("t1", ["a"]), ("t2", ["ab"])]) := by
  decide

/-- C3 (amended): when no JSON value can be extracted from the backend's
output text, `classify` raises a decode error, and `triage` (for a non-team
sender) substitutes the tier-fallback action with a reason that is
`backend error: ` followed by the truncated error text — not `drop` with an
`unparseable LLM output:` reason. -/
theorem C3_unparseable_takes_backend_error_path (fromNode : String)
    (tiers : List (String × List String)) (mode pHash content e : String)
    (hT : resolveTier fromNode tiers ≠ "team")
    (hE : ollamaClassify content = .error e) :
    (triageOllama fromNode tiers mode pHash content).action
        = tierFallbackAction (resolveTier fromNode tiers) mode
    ∧ (triageOllama fromNode tiers mode pHash content).reason
        = "backend error: " ++ strTake e 100 ++ ", tier fallback" := by
  unfold triageOllama
  rw [hE]
  unfold triageCore
  rw [if_neg (by simp [hT])]
  exact ⟨rfl, rfl⟩

/-- C3 witness: the amended theorem applied to a known-tier sender and the
concrete unparseable backend output. -/
theorem C3_witness :
    garbledResult.action = tierFallbackAction (resolveTier ccNode ccTiers) "tier"
    ∧ garbledResult.reason
        = "backend error: "
          ++ strTake "Expecting value: json decode failure" 100 ++ ", tier fallback" :=
  C3_unparseable_takes_backend_error_path ccNode ccTiers "tier" "0123456789abcdef"
    garbledOutput "Expecting value: json decode failure" (by decide) rfl

/-- C3 counterexample: on backend output with no extractable JSON object, a
known-tier sender gets action `wake` (the tier fallback), not `drop`, and
the reason does not begin with `unparseable LLM output:`. -/
theorem C3_cex :
    exceptIsError (ollamaClassify garbledOutput) = true
    ∧ garbledResult.action = "wake"
    ∧ ¬(garbledResult.action = "drop")
    ∧ pyStartsWith garbledResult.reason "unparseable LLM output:" = false := by
  decide

/-- C4: Python's `$` matches just before a trailing newline, so a sender
whose first 16 characters are 15 hex digits and a newline passes
`sanitize_node_prefix` unrejected, and `_trip_breaker` accepts the resulting
newline-bearing target and writes a breaker file under that name — violating
the documented invariant that every written target is `global` or matches
`^[0-9a-f]+$` with no newline. -/
theorem C4_newline_target_written :
    sanitizeNodePrefix newlineNode = newlineNode
    ∧ pyHexMatch newlineNode = true
    ∧ ¬(newlineNode = "global")
    ∧ newlineNode.data.contains '\n' = true
    ∧ newlineNode.data.all isHexLowerChar = false
    ∧ (lookupA (tripBreaker initState "node" newlineNode "loop detected" 3600 1000).breakerFiles
        newlineNode).isSome = true := by
  decide

/-- Helper: the tier fallback is always `wake` or `drop`. -/
theorem tierFallbackAction_mem (t m : String) :
    tierFallbackAction t m = "wake" ∨ tierFallbackAction t m = "drop" := by
  unfold tierFallbackAction
  split_ifs <;> simp

/-- C7: for every non-team sender, `triage` returns an action among drop,
wake and reply; the fallback table maps `tier` mode to wake for `known` and
drop for `unknown` (and any other non-team tier), while modes `wake` and
`drop` force that constant action regardless of tier; an invalid backend
action is replaced by the tier fallback, and a backend exception yields the
tier fallback with a reason of `backend error: ` plus the truncated error
text. -/
theorem C7_nonteam_action_always_valid (fromNode : String)
    (tiers : List (String × List String)) (mode pHash : String)
    (outcome : Except String JsonVal)
    (hT : resolveTier fromNode tiers ≠ "team") :
    ((triageCore fromNode tiers mode pHash outcome).action = "drop"
      ∨ (triageCore fromNode tiers mode pHash outcome).action = "wake"
      ∨ (triageCore fromNode tiers mode pHash outcome).action = "reply")
    ∧ tierFallbackAction "known" "tier" = "wake"
    ∧ (∀ t, t ≠ "team" → t ≠ "known" → tierFallbackAction t "tier" = "drop")
    ∧ (∀ t, tierFallbackAction t "wake" = "wake" ∧ tierFallbackAction t "drop" = "drop")
    ∧ (∀ e, outcome = .error e →
        (triageCore fromNode tiers mode pHash outcome).action
            = tierFallbackAction (resolveTier fromNode tiers) mode
          ∧ (triageCore fromNode tiers mode pHash outcome).reason
            = "backend error: " ++ strTake e 100 ++ ", tier fallback")
    ∧ (∀ v a, outcome = .ok v → triageNormAction v = some a →
        a ≠ "drop" → a ≠ "wake" → a ≠ "reply" →
        (triageCore fromNode tiers mode pHash outcome).action
          = tierFallbackAction (resolveTier fromNode tiers) mode) := by
  have hNe : (resolveTier fromNode tiers == "team") = false := by
    rw [Bool.eq_false_iff]
    intro hb
    exact hT (eq_of_beq hb)
  refine ⟨?_, rfl, ?_, ?_, ?_, ?_⟩
  · unfold triageCore
    dsimp only
    rw [hNe]
    simp only [Bool.false_eq_true, if_false]
    cases outcome with
    | error e =>
      rcases tierFallbackAction_mem (resolveTier fromNode tiers) mode with h | h
      · right; left; exact h
      · left; exact h
    | ok v =>
      dsimp only
      rcases hv : triageNormAction v with _ | a
      · rcases tierFallbackAction_mem (resolveTier fromNode tiers) mode with h | h
        · right; left; exact h
        · left; exact h
      · dsimp only
        by_cases hval : (a == "drop" || a == "wake" || a == "reply") = true
        · rw [if_pos hval]
          simpa [or_assoc] using hval
        · rw [if_neg hval]
          rcases tierFallbackAction_mem (resolveTier fromNode tiers) mode with h | h
          · right; left; exact h
          · left; exact h
  · intro t h1 h2
    unfold tierFallbackAction
    rw [if_neg (by decide), if_neg (by decide), if_neg (by simp [h1]),
      if_neg (by simp [h2])]
  · intro t
    exact ⟨rfl, rfl⟩
  · intro e he
    subst he
    unfold triageCore
    simp only [hNe, Bool.false_eq_true, if_false]
    exact ⟨rfl, rfl⟩
  · intro v a hok hnorm h1 h2 h3
    subst hok
    unfold triageCore
    simp only [hNe, Bool.false_eq_true, if_false]
    rw [hnorm]
    dsimp only
    rw [if_neg (by simp [h1, h2, h3])]

/-- C7 witness: the theorem applied to the known-tier sender `cc…cc` with a
backend exception `timeout` under fallback mode `tier`. -/
theorem C7_witness :
    ((triageCore ccNode ccTiers "tier" "0123456789abcdef" (.error "timeout")).action = "drop"
      ∨ (triageCore ccNode ccTiers "tier" "0123456789abcdef" (.error "timeout")).action = "wake"
      ∨ (triageCore ccNode ccTiers "tier" "0123456789abcdef" (.error "timeout")).action = "reply")
    ∧ (triageCore ccNode ccTiers "tier" "0123456789abcdef" (.error "timeout")).reason
        = "backend error: " ++ strTake "timeout" 100 ++ ", tier fallback" :=
  ⟨(C7_nonteam_action_always_valid ccNode ccTiers "tier" "0123456789abcdef"
      (.error "timeout") (by decide)).1,
    ((C7_nonteam_action_always_valid ccNode ccTiers "tier" "0123456789abcdef"
      (.error "timeout") (by decide)).2.2.2.2.1 "timeout" rfl).2⟩
